import Mathlib

/-!
Shallow embedding of the synthetic DER dataset generator and feeder risk
scorer of `src/app.py` (class `DERAnalytics` and the summary computation in
`main`).

Modelling conventions:

* `Draws` stands for the deterministic stream of draws that `np.random`
  produces after `np.random.seed(s)`: `u i` is the `i`-th unit-interval
  draw (used for `np.random.random`, `np.random.uniform`,
  `np.random.choice` and `np.random.randint`), `z i` the `i`-th standard
  normal draw (used for `np.random.normal`).  Draws are consumed
  sequentially; every definition threads an explicit draw counter exactly
  in the evaluation order of the Python source.
* `Env` holds the fixed closed-form shape functions and the calendar
  functions of pandas timestamps: `sinp x` stands for `sin (π * x)`,
  `expf` for `exp`, `month t` / `dow t` for `Timestamp.month` /
  `Timestamp.dayofweek` of the timestamp `t` (measured in whole hours).
* Time is measured in whole hours; `pd.date_range(start=datetime.now() -
  timedelta(days=30), periods=720, freq='H')` becomes the arithmetic
  progression starting at `now - 720`.
* Numbers are `ℚ` (the Python floats, without rounding); machine floats
  introduce no behaviour any claim depends on.
* The record counts (100 meters, 500 chargers, 1000 inverters, 50
  feeders) are hardcoded `range(1, n+1)` bounds in the source; following
  the spec's generator contract ("given a seed and counts"), each
  generator takes the count as a parameter, `range(1, count+1)` becoming
  `idRange count`; the source's behaviour is the instance at the
  hardcoded count.
-/

/-- The sequential draw streams of the seeded `np.random` generator. -/
structure Draws where
  u : ℕ → ℚ
  z : ℕ → ℚ

/-- Fixed shape functions (`np.sin`, `np.exp` composed with the constants
of the source) and the calendar fields of pandas timestamps. -/
structure Env where
  sinp : ℚ → ℚ
  expf : ℚ → ℚ
  month : ℤ → ℤ
  dow : ℤ → ℤ

/-- `np.random.uniform(a, b)` applied to the unit draw `x`. -/
def unifAB (a b x : ℚ) : ℚ := a + (b - a) * x

/-- `np.random.normal(mu, sigma)` applied to the standard normal draw `x`. -/
def normalMS (mu sigma x : ℚ) : ℚ := mu + sigma * x

/-- `np.random.randint(1, n+1)` applied to the unit draw `x`. -/
def randint1 (n : ℕ) (x : ℚ) : ℕ := 1 + (Int.floor ((n : ℚ) * x)).toNat

/-- The feeder reference string `f"FEEDER_{n}"`. -/
def feederName (n : ℕ) : String := "FEEDER_" ++ toString n

/-- Zero-padded six digit id suffix, `f"{n:06d}"`. -/
def pad6 (n : ℕ) : String :=
  let s := toString n
  String.mk (List.replicate (6 - s.length) '0') ++ s

/-- `range(1, count+1)` of the Python source, with the count taken as an
integer so that a nonpositive count yields the empty range. -/
def idRange (count : ℤ) : List ℕ := List.range' 1 count.toNat

/-- Map a step function over a list while threading the draw counter:
`f a k` is the element produced at counter `k`, `g a k` the counter after
it.  This is the loop skeleton shared by all four telemetry generators. -/
def mapState {α β : Type} (f : α → ℕ → β) (g : α → ℕ → ℕ) : List α → ℕ → List β
  | [], _ => []
  | a :: as, k => f a k :: mapState f g as (g a k)

/-- The hour field of a timestamp measured in whole hours. -/
def hourOf (t : ℤ) : ℤ := t.emod 24

/-! ### Feeder generation (`generate_feeder_data`) -/

/-- One row of `generate_feeder_data`'s `data` list. -/
structure FeederRecord where
  feeder_id : String
  capacity_mva : ℚ
  voltage_kv : ℚ
  current_load_pct : ℚ
  solar_penetration_pct : ℚ
  ev_penetration_pct : ℚ
  constraint_risk : String
  upgrade_priority : ℕ
  latitude : ℚ
  longitude : ℚ
deriving DecidableEq

/-- `np.random.choice([5, 10, 15, 20, 25], p=[0.2, 0.3, 0.3, 0.15, 0.05])`
by cumulative probabilities on a unit draw. -/
def chooseCapacity (x : ℚ) : ℚ :=
  if x < 0.2 then 5 else if x < 0.5 then 10 else if x < 0.8 then 15
  else if x < 0.95 then 20 else 25

/-- `np.random.choice([4.16, 12.47, 13.8, 23], p=[0.3, 0.4, 0.25, 0.05])`. -/
def chooseVoltage (x : ℚ) : ℚ :=
  if x < 0.3 then 4.16 else if x < 0.7 then 12.47 else if x < 0.95 then 13.8 else 23

/-- The body of the feeder loop of `generate_feeder_data` for feeder `i`,
starting at draw counter `k`; it consumes 8 draws. -/
def feederSample (r : Draws) (i : ℕ) (k : ℕ) : FeederRecord :=
  let capacity_mva := chooseCapacity (r.u k)
  let voltage_kv := chooseVoltage (r.u (k + 1))
  let current_load_pct := unifAB 60 95 (r.u (k + 2))
  let solar_penetration_pct := unifAB 5 40 (r.u (k + 3))
  let ev_penetration_pct := unifAB 2 15 (r.u (k + 4))
  { feeder_id := feederName i
    capacity_mva := capacity_mva
    voltage_kv := voltage_kv
    current_load_pct := current_load_pct
    solar_penetration_pct := solar_penetration_pct
    ev_penetration_pct := ev_penetration_pct
    constraint_risk :=
      if current_load_pct > 85 then "High"
      else if current_load_pct > 75 then "Medium" else "Low"
    upgrade_priority := randint1 5 (r.u (k + 5))
    latitude := 40.7128 + normalMS 0 0.2 (r.z (k + 6))
    longitude := -74.0060 + normalMS 0 0.3 (r.z (k + 7)) }

/-- `generate_feeder_data` (`np.random.seed(45)` fixes the streams `r`);
the source's feeder count is 50. -/
def generate_feeder_data (r : Draws) (count : ℤ) : List FeederRecord :=
  mapState (fun i k => feederSample r i k) (fun _ k => k + 8) (idRange count) 0

/-! ### Adoption forecasts (`generate_adoption_forecasts`) -/

/-- One row of `generate_adoption_forecasts`'s `data` list. -/
structure ForecastPoint where
  year : ℕ
  scenario : String
  ev_penetration_pct : ℚ
  solar_penetration_pct : ℚ
  total_der_mw : ℚ
deriving DecidableEq

/-- The scenario branch of `generate_adoption_forecasts`: `(ev_growth,
solar_growth)`; any name other than `Conservative` and `Moderate` takes
the final `else` branch commented `# Aggressive`. -/
def scenarioGrowth (s : String) : ℚ × ℚ :=
  if s = "Conservative" then (0.15, 0.08)
  else if s = "Moderate" then (0.25, 0.12) else (0.35, 0.18)

/-- The loop body of `generate_adoption_forecasts` for one year and one
scenario string. -/
def forecastRow (year : ℕ) (s : String) : ForecastPoint :=
  let ev_growth := (scenarioGrowth s).1
  let solar_growth := (scenarioGrowth s).2
  let years_from_base := year - 2024
  let ev_penetration := min (8 * (1 + ev_growth) ^ years_from_base) 85
  let solar_penetration := min (15 * (1 + solar_growth) ^ years_from_base) 60
  { year := year
    scenario := s
    ev_penetration_pct := ev_penetration
    solar_penetration_pct := solar_penetration
    total_der_mw := (ev_penetration * 7.2 + solar_penetration * 5) * 50 }

/-- The double loop of `generate_adoption_forecasts` over
`years = range(2024, 2035)` and a scenario list. -/
def generate_adoption_forecastsWith (scenarios : List String) : List ForecastPoint :=
  ((List.range' 2024 11).map (fun y => scenarios.map (forecastRow y))).flatten

/-- `generate_adoption_forecasts` with the source's scenario list. -/
def generate_adoption_forecasts : List ForecastPoint :=
  generate_adoption_forecastsWith ["Conservative", "Moderate", "Aggressive"]

/-! ### Smart meter generation (`generate_smart_meter_data`) -/

/-- One row of `generate_smart_meter_data`'s `data` list. -/
structure MeterRecord where
  meter_id : String
  timestamp : ℤ
  load_kw : ℚ
  meter_type : String
  latitude : ℚ
  longitude : ℚ
  feeder_id : String
deriving DecidableEq

/-- `dates[::24]` of `pd.date_range(start=datetime.now()-timedelta(days=30),
periods=720, freq='H')`: thirty timestamps one day apart, starting 720
hours before `now`. -/
def meterTimestamps (now : ℤ) : List ℤ :=
  (List.range 30).map (fun j => now - 720 + 24 * (j : ℤ))

/-- `np.random.choice(['Residential', 'Commercial', 'Industrial'],
p=[0.7, 0.25, 0.05])`. -/
def chooseMeterType (x : ℚ) : String :=
  if x < 0.7 then "Residential" else if x < 0.95 then "Commercial" else "Industrial"

/-- The per-timestamp body of the smart meter loop: the base load by
meter type (the `Industrial` branch consumes one extra normal draw), the
seasonal factor, the noise factor, and the clamp `max(0, load_kw)`. -/
def meterSample (env : Env) (r : Draws) (meter_type : String) (meter_id : ℕ)
    (t : ℤ) (k : ℕ) : MeterRecord :=
  let hour := hourOf t
  let day_of_week := env.dow t
  let month := env.month t
  let base_load : ℚ :=
    if meter_type = "Residential" then
      let b := 2.5 + 1.5 * env.sinp ((((hour : ℚ)) - 6) / 12)
      if day_of_week < 5 then b * 0.9 else b
    else if meter_type = "Commercial" then
      let b := 15.0 + 8.0 * env.sinp ((((hour : ℚ)) - 12) / 8)
      if day_of_week ≥ 5 then b * 0.3 else b
    else 45.0 + 15.0 * normalMS 0 0.2 (r.z k)
  let k1 := if meter_type = "Residential" ∨ meter_type = "Commercial" then k else k + 1
  let seasonal_factor := 1 + 0.3 * env.sinp ((((month : ℚ)) - 6) / 6)
  let load_kw := base_load * seasonal_factor * (1 + normalMS 0 0.1 (r.z k1))
  { meter_id := "SM_" ++ pad6 meter_id
    timestamp := t
    load_kw := max 0 load_kw
    meter_type := meter_type
    latitude := 40.7128 + normalMS 0 0.3 (r.z (k1 + 1))
    longitude := -74.0060 + normalMS 0 0.5 (r.z (k1 + 2))
    feeder_id := feederName (randint1 50 (r.u (k1 + 3))) }

/-- Draw counter advance of one smart meter timestamp iteration. -/
def meterStep (meter_type : String) (k : ℕ) : ℕ :=
  if meter_type = "Residential" ∨ meter_type = "Commercial" then k + 4 else k + 5

/-- The per-meter block of `generate_smart_meter_data`: one meter type
draw, then the thirty daily samples. -/
def meterBlock (env : Env) (r : Draws) (now : ℤ) (meter_id : ℕ) (k : ℕ) :
    List MeterRecord :=
  let meter_type := chooseMeterType (r.u k)
  mapState (fun t j => meterSample env r meter_type meter_id t j)
    (fun _ j => meterStep meter_type j) (meterTimestamps now) (k + 1)

/-- Draw counter advance of one whole meter block. -/
def meterBlockStep (r : Draws) (k : ℕ) : ℕ :=
  k + 1 + 30 * (meterStep (chooseMeterType (r.u k)) 0)

/-- `generate_smart_meter_data` (`np.random.seed(42)` fixes the streams);
the source's meter count is 100; `now` is the wall-clock hour at which
`datetime.now()` is evaluated. -/
def generate_smart_meter_data (env : Env) (r : Draws) (now : ℤ) (count : ℤ) :
    List MeterRecord :=
  (mapState (fun mid k => meterBlock env r now mid k)
    (fun _ k => meterBlockStep r k) (idRange count) 0).flatten

/-! ### EV charger generation (`generate_ev_charger_data`) -/

/-- One row of `generate_ev_charger_data`'s `data` list. -/
structure ChargerRecord where
  charger_id : String
  timestamp : ℤ
  power_kw : ℚ
  session_energy_kwh : ℚ
  charger_type : String
  location_type : String
  latitude : ℚ
  longitude : ℚ
  feeder_id : String
deriving DecidableEq

/-- `np.random.choice(['Level 2', 'DC Fast', 'Tesla Supercharger'],
p=[0.7, 0.2, 0.1])`. -/
def chooseChargerType (x : ℚ) : String :=
  if x < 0.7 then "Level 2" else if x < 0.9 then "DC Fast" else "Tesla Supercharger"

/-- `np.random.choice(['Residential', 'Workplace', 'Public', 'Highway'],
p=[0.4, 0.3, 0.2, 0.1])`. -/
def chooseLocationType (x : ℚ) : String :=
  if x < 0.4 then "Residential" else if x < 0.7 then "Workplace"
  else if x < 0.9 then "Public" else "Highway"

/-- The power rating branch on the charger type. -/
def chargerMaxPower (charger_type : String) : ℚ :=
  if charger_type = "Level 2" then 7.2
  else if charger_type = "DC Fast" then 50 else 150

/-- The usage-probability table keyed by location type, hour and day of
week. -/
def evUsageProb (env : Env) (location_type : String) (t : ℤ) : ℚ :=
  let hour := hourOf t
  let day_of_week := env.dow t
  if location_type = "Residential" then
    if (18 ≤ hour ∧ hour ≤ 23) ∨ (6 ≤ hour ∧ hour ≤ 8) then 0.8 else 0.2
  else if location_type = "Workplace" then
    if (8 ≤ hour ∧ hour ≤ 17) ∧ day_of_week < 5 then 0.7 else 0.1
  else if location_type = "Public" then
    if 9 ≤ hour ∧ hour ≤ 21 then 0.4 else 0.2
  else if 6 ≤ hour ∧ hour ≤ 22 then 0.6 else 0.3

/-- `is_charging = np.random.random() < usage_prob`. -/
def evIsCharging (env : Env) (r : Draws) (location_type : String) (t : ℤ)
    (k : ℕ) : Prop :=
  r.u k < evUsageProb env location_type t

instance (env : Env) (r : Draws) (l : String) (t : ℤ) (k : ℕ) :
    Decidable (evIsCharging env r l t k) := by
  unfold evIsCharging; infer_instance

/-- The per-timestamp body of the EV charger loop: when charging, a power
draw in `[0.3, 1.0]` of the rating and a session length in `[0.5, 4.0]`
hours, each consuming one uniform draw; otherwise both are zero and no
draw is consumed. -/
def evSample (env : Env) (r : Draws) (charger_type location_type : String)
    (charger_id : ℕ) (t : ℤ) (k : ℕ) : ChargerRecord :=
  let max_power := chargerMaxPower charger_type
  let power_kw : ℚ :=
    if evIsCharging env r location_type t k
    then max_power * unifAB 0.3 1.0 (r.u (k + 1)) else 0
  let session_energy : ℚ :=
    if evIsCharging env r location_type t k
    then power_kw * unifAB 0.5 4.0 (r.u (k + 2)) else 0
  let k1 := if evIsCharging env r location_type t k then k + 3 else k + 1
  { charger_id := "EV_" ++ pad6 charger_id
    timestamp := t
    power_kw := power_kw
    session_energy_kwh := session_energy
    charger_type := charger_type
    location_type := location_type
    latitude := 40.7128 + normalMS 0 0.3 (r.z k1)
    longitude := -74.0060 + normalMS 0 0.5 (r.z (k1 + 1))
    feeder_id := feederName (randint1 50 (r.u (k1 + 2))) }

/-- Draw counter advance of one EV charger timestamp iteration. -/
def evStep (env : Env) (r : Draws) (location_type : String) (t : ℤ) (k : ℕ) : ℕ :=
  (if evIsCharging env r location_type t k then k + 3 else k + 1) + 3

/-- The per-charger block of `generate_ev_charger_data`: a charger type
draw, a location type draw, then the thirty daily samples. -/
def evBlock (env : Env) (r : Draws) (now : ℤ) (charger_id : ℕ) (k : ℕ) :
    List ChargerRecord :=
  let charger_type := chooseChargerType (r.u k)
  let location_type := chooseLocationType (r.u (k + 1))
  mapState (fun t j => evSample env r charger_type location_type charger_id t j)
    (fun t j => evStep env r location_type t j) (meterTimestamps now) (k + 2)

/-- Fold of a counter advance over a list, for block-level threading. -/
def chainState {α : Type} (g : α → ℕ → ℕ) : List α → ℕ → ℕ
  | [], k => k
  | a :: as, k => chainState g as (g a k)

/-- Draw counter advance of one whole EV charger block. -/
def evBlockStep (env : Env) (r : Draws) (now : ℤ) (k : ℕ) : ℕ :=
  chainState (fun t j => evStep env r (chooseLocationType (r.u (k + 1))) t j)
    (meterTimestamps now) (k + 2)

/-- `generate_ev_charger_data` (`np.random.seed(43)` fixes the streams);
the source's charger count is 500. -/
def generate_ev_charger_data (env : Env) (r : Draws) (now : ℤ) (count : ℤ) :
    List ChargerRecord :=
  (mapState (fun cid k => evBlock env r now cid k)
    (fun _ k => evBlockStep env r now k) (idRange count) 0).flatten

/-! ### Solar inverter generation (`generate_solar_inverter_data`) -/

/-- One row of `generate_solar_inverter_data`'s `data` list. -/
structure InverterRecord where
  inverter_id : String
  timestamp : ℤ
  generation_kw : ℚ
  system_size_kw : ℚ
  installation_type : String
  latitude : ℚ
  longitude : ℚ
  feeder_id : String
deriving DecidableEq

/-- `dates[::6]`: one hundred twenty timestamps six hours apart. -/
def solarTimestamps (now : ℤ) : List ℤ :=
  (List.range 120).map (fun j => now - 720 + 6 * (j : ℤ))

/-- `np.random.choice([5, 7.5, 10, 15, 20, 50, 100],
p=[0.3, 0.25, 0.2, 0.15, 0.05, 0.03, 0.02])`. -/
def chooseSystemSize (x : ℚ) : ℚ :=
  if x < 0.3 then 5 else if x < 0.55 then 7.5 else if x < 0.75 then 10
  else if x < 0.9 then 15 else if x < 0.95 then 20 else if x < 0.98 then 50 else 100

/-- `np.random.choice(['Residential', 'Commercial', 'Utility'],
p=[0.7, 0.25, 0.05])`. -/
def chooseInstallType (x : ℚ) : String :=
  if x < 0.7 then "Residential" else if x < 0.95 then "Commercial" else "Utility"

/-- Daylight test `6 <= hour <= 18` on a timestamp. -/
def solarDaylight (t : ℤ) : Prop := 6 ≤ hourOf t ∧ hourOf t ≤ 18

instance (t : ℤ) : Decidable (solarDaylight t) := by
  unfold solarDaylight; infer_instance

/-- The per-timestamp body of the solar inverter loop: the Gaussian-like
daytime curve times a weather draw (daylight consumes one uniform draw),
the noise factor, and the clamp `max(0, generation_kw)`. -/
def solarSample (env : Env) (r : Draws) (system_size_kw : ℚ)
    (installation_type : String) (inverter_id : ℕ) (t : ℤ) (k : ℕ) :
    InverterRecord :=
  let hour := hourOf t
  let month := env.month t
  let generation0 : ℚ :=
    if solarDaylight t then
      let hour_factor := env.expf (-(1/2) * ((((hour : ℚ)) - 12) / 4) ^ 2)
      let seasonal_factor := 0.7 + 0.6 * env.sinp ((((month : ℚ)) - 6) / 6)
      let weather_factor := unifAB 0.3 1.0 (r.u k)
      system_size_kw * hour_factor * seasonal_factor * weather_factor
    else 0
  let k1 := if solarDaylight t then k + 1 else k
  let generation_kw := generation0 * (1 + normalMS 0 0.05 (r.z k1))
  { inverter_id := "PV_" ++ pad6 inverter_id
    timestamp := t
    generation_kw := max 0 generation_kw
    system_size_kw := system_size_kw
    installation_type := installation_type
    latitude := 40.7128 + normalMS 0 0.3 (r.z (k1 + 1))
    longitude := -74.0060 + normalMS 0 0.5 (r.z (k1 + 2))
    feeder_id := feederName (randint1 50 (r.u (k1 + 3))) }

/-- Draw counter advance of one solar inverter timestamp iteration. -/
def solarStep (t : ℤ) (k : ℕ) : ℕ :=
  (if solarDaylight t then k + 1 else k) + 4

/-- The per-inverter block of `generate_solar_inverter_data`: a system
size draw, an installation type draw, then the 6-hourly samples. -/
def solarBlock (env : Env) (r : Draws) (now : ℤ) (inverter_id : ℕ) (k : ℕ) :
    List InverterRecord :=
  let system_size_kw := chooseSystemSize (r.u k)
  let installation_type := chooseInstallType (r.u (k + 1))
  mapState (fun t j => solarSample env r system_size_kw installation_type inverter_id t j)
    (fun t j => solarStep t j) (solarTimestamps now) (k + 2)

/-- Draw counter advance of one whole solar inverter block. -/
def solarBlockStep (now : ℤ) (k : ℕ) : ℕ :=
  chainState (fun t j => solarStep t j) (solarTimestamps now) (k + 2)

/-- `generate_solar_inverter_data` (`np.random.seed(44)` fixes the
streams); the source's inverter count is 1000. -/
def generate_solar_inverter_data (env : Env) (r : Draws) (now : ℤ) (count : ℤ) :
    List InverterRecord :=
  (mapState (fun iid k => solarBlock env r now iid k)
    (fun _ k => solarBlockStep now k) (idRange count) 0).flatten

/-! ### Summary metric of `main` -/

/-- The `constrained_feeders` metric of `main`:
`len(feeder_data[feeder_data['current_load_pct'] > constraint_threshold])`. -/
def constrained_feeders (fd : List FeederRecord) (threshold : ℚ) : ℕ :=
  (fd.filter (fun rec => decide (rec.current_load_pct > threshold))).length

/-! ### Concrete sample points used by witnesses and counterexamples -/

/-- A concrete draw environment: every unit draw is `0`, every normal
draw is `0`. -/
def r0 : Draws := { u := fun _ => 0, z := fun _ => 0 }

/-- A concrete shape environment: flat shape curves and a constant
calendar. -/
def env0 : Env :=
  { sinp := fun _ => 0, expf := fun _ => 0, month := fun _ => 1, dow := fun _ => 0 }

/-! ### Helper lemmas about the loop skeleton -/

/-- Every element of `mapState f g l k` is `f a j` for some `a ∈ l` and
some counter `j`. -/
theorem mem_mapState {α β : Type} {f : α → ℕ → β} {g : α → ℕ → ℕ}
    {l : List α} {k : ℕ} {b : β} (h : b ∈ mapState f g l k) :
    ∃ a ∈ l, ∃ j, b = f a j := by
  induction l generalizing k with
  | nil => simp [mapState] at h
  | cons a as ih =>
    rw [mapState] at h
    rcases List.mem_cons.mp h with h1 | h2
    · exact ⟨a, List.mem_cons_self a as, k, h1⟩
    · obtain ⟨x, hx, j, hb⟩ := ih h2
      exact ⟨x, List.mem_cons_of_mem a hx, j, hb⟩

/-- A projection that does not look at the counter commutes with
`mapState`. -/
theorem map_mapState {α β γ : Type} {f : α → ℕ → β} {g : α → ℕ → ℕ}
    {p : β → γ} {q : α → γ} (hpq : ∀ a k, p (f a k) = q a) :
    ∀ (l : List α) (k : ℕ), (mapState f g l k).map p = l.map q := by
  intro l
  induction l with
  | nil => intro k; simp [mapState]
  | cons a as ih => intro k; simp [mapState, hpq, ih]

/-- Flattening a list of singletons is a map. -/
theorem flatten_map_singleton {α β : Type} (f : α → β) :
    ∀ l : List α, ((l.map (fun a => [f a])).flatten) = l.map f := by
  intro l
  induction l with
  | nil => rfl
  | cons a as ih => simp [ih]

/-- `np.random.randint(1, 51)` on a unit draw lands in `range(1, 51)`. -/
theorem randint1_50_mem {x : ℚ} (h0 : 0 ≤ x) (h1 : x < 1) :
    randint1 50 x ∈ idRange 50 := by
  have hnn : (0 : ℚ) ≤ (50 : ℕ) * x := by positivity
  have hlt : ((50 : ℕ) : ℚ) * x < 50 := by push_cast; nlinarith
  have hf0 : 0 ≤ Int.floor (((50 : ℕ) : ℚ) * x) := Int.floor_nonneg.mpr hnn
  have hf : Int.floor (((50 : ℕ) : ℚ) * x) < 50 := by
    rw [Int.floor_lt]; exact_mod_cast hlt
  show 1 + (Int.floor (((50 : ℕ) : ℚ) * x)).toNat ∈ List.range' 1 (Int.toNat 50)
  rw [List.mem_range'_1]
  omega

/-- The feeder ids produced by `generate_feeder_data` are exactly
`FEEDER_1 … FEEDER_count`. -/
theorem feeder_pool_ids (r2 : Draws) (count : ℤ) :
    (generate_feeder_data r2 count).map FeederRecord.feeder_id =
      (idRange count).map feederName := by
  unfold generate_feeder_data
  have hpq : ∀ (a : ℕ) (k : ℕ),
      FeederRecord.feeder_id (feederSample r2 a k) = feederName a :=
    fun _ _ => rfl
  exact map_mapState hpq (idRange count) 0

/-- A feeder reference drawn by `randint(1, 51)` on a unit draw belongs to
the id pool of the fifty generated feeders. -/
theorem feederName_randint_mem (r2 : Draws) {x : ℚ} (h0 : 0 ≤ x) (h1 : x < 1) :
    feederName (randint1 50 x) ∈
      (generate_feeder_data r2 50).map FeederRecord.feeder_id := by
  rw [feeder_pool_ids]
  exact List.mem_map_of_mem feederName (randint1_50_mem h0 h1)

/-- Every smart meter record is a `meterSample` at a generated timestamp. -/
theorem mem_meter_gen {env : Env} {r : Draws} {now count : ℤ} {rec : MeterRecord}
    (h : rec ∈ generate_smart_meter_data env r now count) :
    ∃ mt mid t j, rec = meterSample env r mt mid t j ∧ t ∈ meterTimestamps now := by
  obtain ⟨blk, hblk, hrec⟩ := List.mem_flatten.mp h
  obtain ⟨mid, -, k, hb⟩ := mem_mapState hblk
  subst hb
  simp only [meterBlock] at hrec
  obtain ⟨t, ht, j, hb2⟩ := mem_mapState hrec
  exact ⟨_, mid, t, j, hb2, ht⟩

/-- Every EV charger record is an `evSample` at a generated timestamp. -/
theorem mem_ev_gen {env : Env} {r : Draws} {now count : ℤ} {rec : ChargerRecord}
    (h : rec ∈ generate_ev_charger_data env r now count) :
    ∃ ct lt cid t j, rec = evSample env r ct lt cid t j := by
  obtain ⟨blk, hblk, hrec⟩ := List.mem_flatten.mp h
  obtain ⟨cid, -, k, hb⟩ := mem_mapState hblk
  subst hb
  simp only [evBlock] at hrec
  obtain ⟨t, -, j, hb2⟩ := mem_mapState hrec
  exact ⟨_, _, cid, t, j, hb2⟩

/-- Every solar inverter record is a `solarSample` at a generated
timestamp. -/
theorem mem_solar_gen {env : Env} {r : Draws} {now count : ℤ} {rec : InverterRecord}
    (h : rec ∈ generate_solar_inverter_data env r now count) :
    ∃ sz it iid t j, rec = solarSample env r sz it iid t j ∧ t ∈ solarTimestamps now := by
  obtain ⟨blk, hblk, hrec⟩ := List.mem_flatten.mp h
  obtain ⟨iid, -, k, hb⟩ := mem_mapState hblk
  subst hb
  simp only [solarBlock] at hrec
  obtain ⟨t, ht, j, hb2⟩ := mem_mapState hrec
  exact ⟨_, _, iid, t, j, hb2, ht⟩

/-- The forecast table of a single scenario is one row per horizon year. -/
theorem forecastsWith_singleton (s : String) :
    generate_adoption_forecastsWith [s] =
      (List.range' 2024 11).map (fun y => forecastRow y s) := by
  unfold generate_adoption_forecastsWith
  simp only [List.map_cons, List.map_nil]
  exact flatten_map_singleton (fun y => forecastRow y s) (List.range' 2024 11)

/-- The single feeder generated at count one. -/
theorem feederSample_mem_one (r : Draws) :
    feederSample r 1 0 ∈ generate_feeder_data r 1 := by
  have h1 : idRange 1 = [1] := rfl
  unfold generate_feeder_data
  rw [h1]
  simp [mapState]

/-- Every forecast row is a `forecastRow` of some year and some listed
scenario. -/
theorem mem_forecastsWith {scenarios : List String} {p : ForecastPoint}
    (hp : p ∈ generate_adoption_forecastsWith scenarios) :
    ∃ y s, s ∈ scenarios ∧ p = forecastRow y s := by
  unfold generate_adoption_forecastsWith at hp
  obtain ⟨blk, hblk, hp2⟩ := List.mem_flatten.mp hp
  obtain ⟨y, -, rfl⟩ := List.mem_map.mp hblk
  obtain ⟨s, hs, rfl⟩ := List.mem_map.mp hp2
  exact ⟨y, s, hs, rfl⟩

/-- Both generated EV charger quantities are nonnegative whenever the
unit draws are nonnegative: the rating branch is positive and both
uniform draw ranges lie above zero. -/
theorem evSample_nonneg (env : Env) (r : Draws) (ct lt : String) (cid : ℕ)
    (t : ℤ) (k : ℕ) (hu : ∀ i, 0 ≤ r.u i) :
    0 ≤ (evSample env r ct lt cid t k).power_kw ∧
    0 ≤ (evSample env r ct lt cid t k).session_energy_kwh := by
  have hmp : 0 ≤ chargerMaxPower ct := by
    unfold chargerMaxPower
    split_ifs <;> norm_num
  have hu1 : 0 ≤ unifAB 0.3 1.0 (r.u (k + 1)) := by
    have := hu (k + 1)
    unfold unifAB
    nlinarith
  have hu2 : 0 ≤ unifAB 0.5 4.0 (r.u (k + 2)) := by
    have := hu (k + 2)
    unfold unifAB
    nlinarith
  constructor
  · show 0 ≤ if evIsCharging env r lt t k
        then chargerMaxPower ct * unifAB 0.3 1.0 (r.u (k + 1)) else 0
    split_ifs with hc
    · exact mul_nonneg hmp hu1
    · exact le_rfl
  · show 0 ≤ if evIsCharging env r lt t k
        then (if evIsCharging env r lt t k
          then chargerMaxPower ct * unifAB 0.3 1.0 (r.u (k + 1)) else 0) *
            unifAB 0.5 4.0 (r.u (k + 2)) else 0
    split_ifs with hc
    · exact mul_nonneg (mul_nonneg hmp hu1) hu2
    · exact le_rfl

/-! ### Claims -/

/-- Claim C1: for every feeder record produced by feeder generation, the
risk tier is a pure function of the current load fraction: the tier is
High iff the load fraction is strictly greater than 85, Medium iff it is
strictly greater than 75 and at most 85, and Low otherwise (so exactly 85
yields Medium and exactly 75 yields Low). -/
theorem feeder_risk_tier_C1 (r : Draws) (count : ℤ) (rec : FeederRecord)
    (h : rec ∈ generate_feeder_data r count) :
    (rec.constraint_risk = "High" ↔ rec.current_load_pct > 85) ∧
    (rec.constraint_risk = "Medium" ↔
      75 < rec.current_load_pct ∧ rec.current_load_pct ≤ 85) ∧
    (rec.constraint_risk = "Low" ↔ rec.current_load_pct ≤ 75) := by
  obtain ⟨i, -, j, hb⟩ := mem_mapState h
  subst hb
  have hrisk : (feederSample r i j).constraint_risk =
      if unifAB 60 95 (r.u (j + 2)) > 85 then "High"
      else if unifAB 60 95 (r.u (j + 2)) > 75 then "Medium" else "Low" := rfl
  have hload : (feederSample r i j).current_load_pct = unifAB 60 95 (r.u (j + 2)) := rfl
  rw [hrisk, hload]
  split_ifs with h85 h75
  · refine ⟨iff_of_true rfl h85, ?_, ?_⟩
    · refine iff_of_false (by decide) ?_
      rintro ⟨-, hc⟩
      linarith
    · refine iff_of_false (by decide) ?_
      intro hc
      linarith
  · refine ⟨iff_of_false (by decide) h85, iff_of_true rfl ⟨h75, not_lt.mp h85⟩, ?_⟩
    refine iff_of_false (by decide) ?_
    intro hc
    linarith
  · refine ⟨iff_of_false (by decide) h85, ?_, iff_of_true rfl (not_lt.mp h75)⟩
    refine iff_of_false (by decide) ?_
    rintro ⟨hc, -⟩
    exact h75 hc

/-- Claim C1 witness: the first generated feeder record under the
all-zero draw streams. -/
theorem feeder_risk_tier_C1_witness :
    ((feederSample r0 1 0).constraint_risk = "High" ↔
      (feederSample r0 1 0).current_load_pct > 85) ∧
    ((feederSample r0 1 0).constraint_risk = "Medium" ↔
      75 < (feederSample r0 1 0).current_load_pct ∧
        (feederSample r0 1 0).current_load_pct ≤ 85) ∧
    ((feederSample r0 1 0).constraint_risk = "Low" ↔
      (feederSample r0 1 0).current_load_pct ≤ 75) :=
  feeder_risk_tier_C1 r0 1 (feederSample r0 1 0) (feederSample_mem_one r0)

/-- Claim C4: every row of the adoption forecast table has EV penetration
at most 85 and solar penetration at most 60, for every year and every
scenario string. -/
theorem forecast_caps_C4 (scenarios : List String) (p : ForecastPoint)
    (hp : p ∈ generate_adoption_forecastsWith scenarios) :
    p.ev_penetration_pct ≤ 85 ∧ p.solar_penetration_pct ≤ 60 := by
  obtain ⟨y, s, -, rfl⟩ := mem_forecastsWith hp
  exact ⟨min_le_right _ _, min_le_right _ _⟩

/-- Claim C4 witness: the Conservative row of the base year. -/
theorem forecast_caps_C4_witness :
    (forecastRow 2024 "Conservative").ev_penetration_pct ≤ 85 ∧
    (forecastRow 2024 "Conservative").solar_penetration_pct ≤ 60 :=
  forecast_caps_C4 ["Conservative"] (forecastRow 2024 "Conservative")
    (by
      rw [forecastsWith_singleton]
      exact List.mem_map_of_mem _ (List.mem_range'_1.mpr (by norm_num)))

/-- Claim C5: for any threshold, the count rendered as "constrained
feeders" in the summary of `main` equals the number of generated feeders
whose current load fraction is strictly above the threshold (the source's
scenario is the 50-feeder table with threshold 85). -/
theorem constrained_count_C5 (r : Draws) (threshold : ℚ) :
    constrained_feeders (generate_feeder_data r 50) threshold =
      List.countP (fun rec => decide (threshold < rec.current_load_pct))
        (generate_feeder_data r 50) := by
  unfold constrained_feeders
  rw [List.countP_eq_length_filter]

/-- Claim C6: the Conservative forecast row of year 2029 (five years from
the 2024 base) has EV penetration equal to the closed form
`8 * 1.15 ^ 5` capped at 85, within tolerance `1e-9` (here: exactly). -/
theorem conservative_2029_C6 :
    (generate_adoption_forecasts.filter
        (fun p => p.year == 2029 && p.scenario == "Conservative")).length = 1 ∧
    ∀ p ∈ generate_adoption_forecasts.filter
        (fun p => p.year == 2029 && p.scenario == "Conservative"),
      |p.ev_penetration_pct - min (8 * (1.15 : ℚ) ^ 5) 85| ≤ 1 / 1000000000 := by
  have hfilter : generate_adoption_forecasts.filter
      (fun p => p.year == 2029 && p.scenario == "Conservative") =
      [forecastRow 2029 "Conservative"] := rfl
  rw [hfilter]
  refine ⟨rfl, ?_⟩
  intro p hp
  rw [List.mem_singleton] at hp
  subst hp
  have hg : scenarioGrowth "Conservative" = (0.15, 0.08) := rfl
  show |min (8 * (1 + (scenarioGrowth "Conservative").1) ^ (2029 - 2024)) 85 -
      min (8 * (1.15 : ℚ) ^ 5) 85| ≤ 1 / 1000000000
  rw [hg]
  norm_num

/-- Claim C7 counterexample: forecast generation run over an unknown
scenario name does not fail and does not produce an error: it produces
one row per horizon year, with the Aggressive growth rate. -/
theorem unknown_scenario_C7_cex :
    (generate_adoption_forecastsWith ["Photon"]).length = 11 ∧
    ∀ p ∈ generate_adoption_forecastsWith ["Photon"],
      p.ev_penetration_pct = min (8 * (1.35 : ℚ) ^ (p.year - 2024)) 85 := by
  rw [forecastsWith_singleton]
  refine ⟨rfl, ?_⟩
  intro p hp
  obtain ⟨y, -, rfl⟩ := List.mem_map.mp hp
  have hg : scenarioGrowth "Photon" = (0.35, 0.18) := rfl
  show min (8 * (1 + (scenarioGrowth "Photon").1) ^ (y - 2024)) 85 =
      min (8 * (1.35 : ℚ) ^ (y - 2024)) 85
  rw [hg]
  norm_num

/-- Claim C7 (amended): generation performs no configuration validation;
a scenario name other than Conservative and Moderate falls into the
`else` branch and is treated as Aggressive, producing one forecast row
per year of the horizon instead of failing. -/
theorem unknown_scenario_aggressive_C7 (s : String) (y : ℕ)
    (h1 : s ≠ "Conservative") (h2 : s ≠ "Moderate") :
    generate_adoption_forecastsWith [s] =
      (List.range' 2024 11).map (fun yr => forecastRow yr s) ∧
    (forecastRow y s).ev_penetration_pct =
      (forecastRow y "Aggressive").ev_penetration_pct ∧
    (forecastRow y s).solar_penetration_pct =
      (forecastRow y "Aggressive").solar_penetration_pct ∧
    (forecastRow y s).total_der_mw = (forecastRow y "Aggressive").total_der_mw := by
  have hg : scenarioGrowth s = (0.35, 0.18) := by
    unfold scenarioGrowth
    rw [if_neg h1, if_neg h2]
  have hga : scenarioGrowth "Aggressive" = (0.35, 0.18) := rfl
  refine ⟨forecastsWith_singleton s, ?_, ?_, ?_⟩
  all_goals
    unfold forecastRow
    rw [hg, hga]

/-- Claim C7 (amended) witness: the unknown scenario name "Bogus" at year
2029. -/
theorem unknown_scenario_aggressive_C7_witness :
    generate_adoption_forecastsWith ["Bogus"] =
      (List.range' 2024 11).map (fun yr => forecastRow yr "Bogus") ∧
    (forecastRow 2029 "Bogus").ev_penetration_pct =
      (forecastRow 2029 "Aggressive").ev_penetration_pct ∧
    (forecastRow 2029 "Bogus").solar_penetration_pct =
      (forecastRow 2029 "Aggressive").solar_penetration_pct ∧
    (forecastRow 2029 "Bogus").total_der_mw =
      (forecastRow 2029 "Aggressive").total_der_mw :=
  unknown_scenario_aggressive_C7 "Bogus" 2029 (by decide) (by decide)

/-- Claim C8: a generation count that is zero or negative yields an empty
collection for each of the four telemetry generators, with no failure. -/
theorem empty_on_nonpositive_count_C8 (env : Env) (r : Draws) (now : ℤ)
    (count : ℤ) (h : count ≤ 0) :
    generate_smart_meter_data env r now count = [] ∧
    generate_ev_charger_data env r now count = [] ∧
    generate_solar_inverter_data env r now count = [] ∧
    generate_feeder_data r count = [] := by
  have h0 : count.toNat = 0 := Int.toNat_of_nonpos h
  refine ⟨?_, ?_, ?_, ?_⟩ <;>
    simp [generate_smart_meter_data, generate_ev_charger_data,
      generate_solar_inverter_data, generate_feeder_data, idRange, h0, mapState]

/-- Claim C8 witness: count `-2` at the concrete sample environment. -/
theorem empty_on_nonpositive_count_C8_witness :
    generate_smart_meter_data env0 r0 720 (-2) = [] ∧
    generate_ev_charger_data env0 r0 720 (-2) = [] ∧
    generate_solar_inverter_data env0 r0 720 (-2) = [] ∧
    generate_feeder_data r0 (-2) = [] :=
  empty_on_nonpositive_count_C8 env0 r0 720 (-2) (by decide)

/-- Claim C10: every forecast row's aggregate DER capacity equals
`(ev_penetration_pct * 7.2 + solar_penetration_pct * 5) * 50` computed
from the row's capped penetrations, and hence never exceeds 45600. -/
theorem forecast_total_C10 (scenarios : List String) (p : ForecastPoint)
    (hp : p ∈ generate_adoption_forecastsWith scenarios) :
    p.total_der_mw = (p.ev_penetration_pct * 7.2 + p.solar_penetration_pct * 5) * 50 ∧
    p.total_der_mw ≤ 45600 := by
  obtain ⟨y, s, -, rfl⟩ := mem_forecastsWith hp
  refine ⟨rfl, ?_⟩
  have h1 : (forecastRow y s).ev_penetration_pct ≤ 85 := min_le_right _ _
  have h2 : (forecastRow y s).solar_penetration_pct ≤ 60 := min_le_right _ _
  show ((forecastRow y s).ev_penetration_pct * 7.2 +
      (forecastRow y s).solar_penetration_pct * 5) * 50 ≤ 45600
  nlinarith

/-- Claim C10 witness: the Moderate row of the base year. -/
theorem forecast_total_C10_witness :
    (forecastRow 2024 "Moderate").total_der_mw =
      ((forecastRow 2024 "Moderate").ev_penetration_pct * 7.2 +
        (forecastRow 2024 "Moderate").solar_penetration_pct * 5) * 50 ∧
    (forecastRow 2024 "Moderate").total_der_mw ≤ 45600 :=
  forecast_total_C10 ["Moderate"] (forecastRow 2024 "Moderate")
    (by
      rw [forecastsWith_singleton]
      exact List.mem_map_of_mem _ (List.mem_range'_1.mpr (by norm_num)))

/-- Claim C2 counterexample: with identical draw streams (the same seed)
and identical counts but two different wall-clock start times, smart
meter generation produces different output, so the generated collections
do not depend only on the seed and the count constants. -/
theorem generation_wall_clock_C2_cex :
    generate_smart_meter_data env0 r0 720 100 ≠
      generate_smart_meter_data env0 r0 744 100 := by
  decide

/-- Claim C2 (amended): for a fixed seed, two runs of dataset generation
started at the same wall-clock time produce identical output; the
wall-clock start time is an additional input of the device generators —
it determines the timestamp fields of the generated records — while
feeder and forecast generation take no wall-clock input at all. -/
theorem generation_deterministic_C2 (env : Env) (r : Draws)
    (now now2 count : ℤ) (h : now = now2) :
    generate_smart_meter_data env r now count =
      generate_smart_meter_data env r now2 count ∧
    generate_ev_charger_data env r now count =
      generate_ev_charger_data env r now2 count ∧
    generate_solar_inverter_data env r now count =
      generate_solar_inverter_data env r now2 count ∧
    (∀ rec ∈ generate_smart_meter_data env r now count,
      rec.timestamp ∈ meterTimestamps now) ∧
    (∀ rec ∈ generate_solar_inverter_data env r now count,
      rec.timestamp ∈ solarTimestamps now) := by
  subst h
  refine ⟨rfl, rfl, rfl, ?_, ?_⟩
  · intro rec hrec
    obtain ⟨mt, mid, t, j, rfl, ht⟩ := mem_meter_gen hrec
    exact ht
  · intro rec hrec
    obtain ⟨sz, it, iid, t, j, rfl, ht⟩ := mem_solar_gen hrec
    exact ht

/-- Claim C2 (amended) witness: the concrete sample environment at start
time 720 and count one. -/
theorem generation_deterministic_C2_witness :
    generate_smart_meter_data env0 r0 720 1 =
      generate_smart_meter_data env0 r0 720 1 ∧
    generate_ev_charger_data env0 r0 720 1 =
      generate_ev_charger_data env0 r0 720 1 ∧
    generate_solar_inverter_data env0 r0 720 1 =
      generate_solar_inverter_data env0 r0 720 1 ∧
    (∀ rec ∈ generate_smart_meter_data env0 r0 720 1,
      rec.timestamp ∈ meterTimestamps 720) ∧
    (∀ rec ∈ generate_solar_inverter_data env0 r0 720 1,
      rec.timestamp ∈ solarTimestamps 720) :=
  generation_deterministic_C2 env0 r0 720 720 1 rfl

/-- Claim C3: every generated load, power, session energy and generation
value is nonnegative, whatever the normal draws are (the unit draws of
`np.random` lie in `[0, 1)`; only their nonnegativity is needed). -/
theorem telemetry_nonneg_C3 (env : Env) (r : Draws) (now count : ℤ)
    (hu : ∀ i, 0 ≤ r.u i) :
    (∀ rec ∈ generate_smart_meter_data env r now count, 0 ≤ rec.load_kw) ∧
    (∀ rec ∈ generate_ev_charger_data env r now count,
      0 ≤ rec.power_kw ∧ 0 ≤ rec.session_energy_kwh) ∧
    (∀ rec ∈ generate_solar_inverter_data env r now count,
      0 ≤ rec.generation_kw) := by
  refine ⟨?_, ?_, ?_⟩
  · intro rec hrec
    obtain ⟨mt, mid, t, j, rfl, -⟩ := mem_meter_gen hrec
    exact le_max_left 0 _
  · intro rec hrec
    obtain ⟨ct, lt, cid, t, j, rfl⟩ := mem_ev_gen hrec
    exact evSample_nonneg env r ct lt cid t j hu
  · intro rec hrec
    obtain ⟨sz, it, iid, t, j, rfl, -⟩ := mem_solar_gen hrec
    exact le_max_left 0 _

/-- Claim C3 witness: the all-zero draw streams at start time 720 and
count one. -/
theorem telemetry_nonneg_C3_witness :
    (∀ rec ∈ generate_smart_meter_data env0 r0 720 1, 0 ≤ rec.load_kw) ∧
    (∀ rec ∈ generate_ev_charger_data env0 r0 720 1,
      0 ≤ rec.power_kw ∧ 0 ≤ rec.session_energy_kwh) ∧
    (∀ rec ∈ generate_solar_inverter_data env0 r0 720 1,
      0 ≤ rec.generation_kw) :=
  telemetry_nonneg_C3 env0 r0 720 1 (fun _ => le_rfl)

/-- Claim C9: every device record carries exactly one feeder reference,
and it belongs to the id pool `FEEDER_1 … FEEDER_50` of the fifty
generated feeders, whenever the unit draws lie in `[0, 1)`. -/
theorem device_feeder_pool_C9 (env : Env) (r r2 : Draws) (now count : ℤ)
    (hu : ∀ i, 0 ≤ r.u i ∧ r.u i < 1) :
    (∀ rec ∈ generate_smart_meter_data env r now count,
      rec.feeder_id ∈ (generate_feeder_data r2 50).map FeederRecord.feeder_id) ∧
    (∀ rec ∈ generate_ev_charger_data env r now count,
      rec.feeder_id ∈ (generate_feeder_data r2 50).map FeederRecord.feeder_id) ∧
    (∀ rec ∈ generate_solar_inverter_data env r now count,
      rec.feeder_id ∈ (generate_feeder_data r2 50).map FeederRecord.feeder_id) := by
  refine ⟨?_, ?_, ?_⟩
  · intro rec hrec
    obtain ⟨mt, mid, t, j, rfl, -⟩ := mem_meter_gen hrec
    exact feederName_randint_mem r2 (hu _).1 (hu _).2
  · intro rec hrec
    obtain ⟨ct, lt, cid, t, j, rfl⟩ := mem_ev_gen hrec
    exact feederName_randint_mem r2 (hu _).1 (hu _).2
  · intro rec hrec
    obtain ⟨sz, it, iid, t, j, rfl, -⟩ := mem_solar_gen hrec
    exact feederName_randint_mem r2 (hu _).1 (hu _).2

/-- Claim C9 witness: the all-zero draw streams at start time 720 and
count one. -/
theorem device_feeder_pool_C9_witness :
    (∀ rec ∈ generate_smart_meter_data env0 r0 720 1,
      rec.feeder_id ∈ (generate_feeder_data r0 50).map FeederRecord.feeder_id) ∧
    (∀ rec ∈ generate_ev_charger_data env0 r0 720 1,
      rec.feeder_id ∈ (generate_feeder_data r0 50).map FeederRecord.feeder_id) ∧
    (∀ rec ∈ generate_solar_inverter_data env0 r0 720 1,
      rec.feeder_id ∈ (generate_feeder_data r0 50).map FeederRecord.feeder_id) :=
  device_feeder_pool_C9 env0 r0 r0 720 1 (fun _ => ⟨le_rfl, by norm_num [r0]⟩)
